import Mathlib

/-!
Verification of the core data model of the money-lock escrow service
(`app/core/models.py`): user creation, verification-token minting and the
token generator, the verification-email flow, and the payment-agreement
creation hook.  Python/Django code is shallowly embedded: timestamps are
seconds as `Nat`, randomness is an explicit stream of draws, exceptions are
`Except`, and the persisted token table is a list of token strings.
-/

/-- Alphabet used by the token generator: `string.ascii_letters + string.digits`
(lowercase letters, then uppercase letters, then digits: 62 symbols). -/
def alphanumChars : List Char :=
  "abcdefghijklmnopqrstuvwxyzABCDEFGHIJKLMNOPQRSTUVWXYZ0123456789".toList

theorem alphanumChars_length : alphanumChars.length = 62 := by decide

/-- One random draw of the generator: seven independent choices of a symbol,
modelling `random.choices(string.ascii_letters + string.digits, k=7)`. -/
def Draw : Type := Fin 7 → Fin 62

/-- The string `''.join(...)` built from one draw. -/
def tokenOfDraw (d : Draw) : String :=
  String.mk ((List.finRange 7).map (fun i =>
    alphanumChars.get (Fin.cast alphanumChars_length.symm (d i))))

/-- `CustomToken.generate_unique_token`, fuel-indexed.  `existing` is the set
of persisted `token` column values of the concrete token subtype
(`cls.objects.filter(token=token).exists()`), `draws` the stream of random
draws, `i` the index of the next draw, and the fuel bounds how many loop
iterations we observe; `none` means the `while True` loop has not returned
within the given fuel. -/
def genFrom (existing : List String) (draws : Nat → Draw) : Nat → Nat → Option String
  | _, 0 => none
  | i, n + 1 =>
    let t := tokenOfDraw (draws i)
    if t ∈ existing then genFrom existing draws (i + 1) n else some t

/-- A persisted `CustomToken` row: `token`, `created_on`, optional
`expires_on`, `active` (default `True`). -/
structure TokenRec where
  token : String
  created_on : Nat
  expires_on : Option Nat
  active : Bool
deriving Repr, DecidableEq

/-- `CustomToken.is_active`: `False` when `active` is unset, otherwise
`expires_on is None or timezone.now() < expires_on`. -/
def TokenRec.is_active (tk : TokenRec) (now : Nat) : Bool :=
  if !tk.active then false
  else
    match tk.expires_on with
    | none => true
    | some e => decide (now < e)

/-- The spec's formula for the derived flag:
`active AND (no expiry OR now < expiry)`. -/
def specIsActive (tk : TokenRec) (now : Nat) : Bool :=
  tk.active && (tk.expires_on.isNone || tk.expires_on.any (fun e => decide (now < e)))

/-- The token record persisted by `User.send_email_verification`:
`UserVerificationToken.objects.create(token=token, user=self,
expires_on=timezone.now() + timedelta(hours=24))`; `active` keeps its
default `True`, `created_on` is `auto_now_add`. -/
def mintVerificationToken (token : String) (now : Nat) : TokenRec :=
  { token := token
    created_on := now
    expires_on := some (now + 24 * 3600)
    active := true }

/-- Python truthiness of an optional string (`if not email`): `None` and the
empty string are falsy. -/
def pyTruthy : Option String → Bool
  | none => false
  | some s => !(s == "")

/-- `BaseUserManager.normalize_email`: strip, split at the last `@`, lowercase
the domain part; when `rsplit` finds no `@` the original address is returned
unchanged (the strip happens only inside the `try`). -/
def normalize_email (email : String) : String :=
  let parts := email.trim.splitOn "@"
  if parts.length ≤ 1 then email
  else String.intercalate "@" parts.dropLast ++ "@" ++ (parts.getLastD "").toLower

/-- Modelled from the spec: Django's password hashing behind
`AbstractBaseUser.set_password` is not part of the examined source.  Stand-in
for the digest portion of the encoded password.  The spec's contract for the
hasher is that the stored value is a salted hash of the input, never
plaintext-equal to it; the stand-in realises that contract structurally by
emitting a digest longer than the plaintext (hex digits of a salted fold,
zero-padded), so the encoding can never coincide with the plaintext.  No
claim inspects the digest's value. -/
def hashDigest (salt p : String) : String :=
  let n : Nat := (salt ++ p).toList.foldl (fun a c => (a * 31 + c.toNat) % 2 ^ 64) 7
  String.mk (Nat.toDigits 16 n ++ List.replicate (p.length + 1) '0')

/-- Modelled from the spec: `set_password` stores the salted-hash encoding
`algorithm$iterations$salt$hash` of a provided raw password; Django's
documented behaviour for `raw_password = None` is to store an
unusable-password marker: the character `!` followed by a random string. -/
def make_password (salt : String) (raw : Option String) : String :=
  match raw with
  | none => "!" ++ salt
  | some p => "pbkdf2_sha256$600000$" ++ salt ++ "$" ++ hashDigest salt p

/-- Modelled from the spec: Django's `has_usable_password` — a stored password
beginning with the marker `!` is unusable. -/
def has_usable_password (stored : String) : Bool :=
  stored.data.head? != some '!'

/-- A persisted `User` row (fields the claims mention; `phone_number`,
`created_at` and `last_active` carry no logic touched by any claim). -/
structure UserRec where
  id : String
  name : String
  email : String
  password : String
  email_verified : Bool
  is_active : Bool
  is_admin : Bool
deriving Repr, DecidableEq

/-- `MyUserManager.create_user`: raises `ValueError` when `email` is falsy
(`None` or empty), otherwise builds the user from the normalized email, hashes
the password via `set_password`, and saves.  The hasher's salt and the fresh
UUID chosen at save time are explicit arguments; an `Except.error` is a raise
before any save, so no user is created. -/
def create_user (newId salt : String) (email : Option String) (password : Option String) :
    Except String UserRec :=
  if pyTruthy email = false then Except.error "Users must have an email address"
  else
    Except.ok
      { id := newId
        name := ""
        email := normalize_email (email.getD "")
        password := make_password salt password
        email_verified := false
        is_active := true
        is_admin := false }

/-- Payload half of the notifier message: `content = {"subject": ...,
"html": ...}`. -/
structure EmailContent where
  subject : String
  html : String
deriving Repr, DecidableEq

/-- One entry of the notifier's recipient list:
`{"address": ..., "displayName": ...}`. -/
structure Recipient where
  address : String
  displayName : String
deriving Repr, DecidableEq

/-- `django.utils.html.escape` on a single character (the function is a
character-wise translate of the five HTML-special characters). -/
def escapeChar (c : Char) : String :=
  if c = '&' then "&amp;"
  else if c = '<' then "&lt;"
  else if c = '>' then "&gt;"
  else if c = Char.ofNat 34 then "&quot;"
  else if c = Char.ofNat 39 then "&#x27;"
  else String.singleton c

/-- `django.utils.html.escape`. -/
def escape (s : String) : String :=
  String.join (s.toList.map escapeChar)

/-- The verification-link path embedded in the email:
`/verification/verify_email/` then the user's UUID, `/`, the token, `/`. -/
def verifyPath (userId token : String) : String :=
  "/verification/verify_email/" ++ userId ++ "/" ++ token ++ "/"

/-- Text of the email f-string before `escape(self.name)`. -/
def emailBodyPre : String :=
  "\n            <html>\n                <h1>Hello "

/-- Text of the email f-string between the escaped name and the link host. -/
def emailBodyMid : String :=
  ".</h1>\n                <h6>Click here to verify your email: \n                    <a href=\"http://localhost:5173"

/-- Text of the email f-string after the verification link. -/
def emailBodyPost : String :=
  "\">Verify Email</a>\n                    The link is valid for 24 hours.\n                </h6>\n            </html>\n            "

/-- The `email_body` f-string of `User.send_email_verification`: greeting with
the escaped display name, then the link `http://localhost:5173` plus the
verification path for this user and token. -/
def email_body (name userId token : String) : String :=
  emailBodyPre ++ escape name ++ emailBodyMid ++ verifyPath userId token ++ emailBodyPost

/-- Which statement of the `try` block raised, when one did. -/
inductive PyErr
  | mintErr
  | persistErr
  | dispatchErr
deriving Repr, DecidableEq

/-- Failure injection for the three fallible steps of the `try` block: token
mint, token persist, email dispatch. -/
structure SendEnv where
  mintFails : Bool
  persistFails : Bool
  dispatchFails : Bool
deriving Repr, DecidableEq

/-- The environment in which no step raises. -/
def allOk : SendEnv := ⟨false, false, false⟩

/-- What `send_email(content, recipients)` was handed on the verification
path. -/
structure SentEmail where
  content : EmailContent
  recipients : List Recipient
deriving Repr, DecidableEq

/-- The `try` block of `User.send_email_verification`, step by step from the
source: mint a token, persist it with `expires_on = now + 24h`, build
`email_body`, `content` and `recipients`, dispatch.  Returns the persisted
token record and the dispatched message, or the first exception raised. -/
def send_email_verification_body (u : UserRec) (env : SendEnv) (token : String) (now : Nat) :
    Except PyErr (TokenRec × SentEmail) :=
  if env.mintFails then Except.error PyErr.mintErr
  else if env.persistFails then Except.error PyErr.persistErr
  else
    let tokRec := mintVerificationToken token now
    let body := email_body u.name u.id token
    let content : EmailContent := { subject := "Email Verification", html := body }
    let recipients : List Recipient := [{ address := u.email, displayName := u.name }]
    if env.dispatchFails then Except.error PyErr.dispatchErr
    else Except.ok (tokRec, { content := content, recipients := recipients })

/-- A log line produced by the flow. -/
inductive LogEntry
  | infoSent (email : String)
  | errorFailed (e : PyErr)
deriving Repr, DecidableEq

/-- `User.send_email_verification` with its `try/except Exception`: on success
the info line is logged; any exception from the block is caught, logged via
`logger.error`, and swallowed.  The outer `Except` is the exception channel of
the call itself: an `Except.error` here would be an exception reaching the
caller. -/
def send_email_verification (u : UserRec) (env : SendEnv) (token : String) (now : Nat) :
    Except PyErr (List LogEntry × Option (TokenRec × SentEmail)) :=
  match send_email_verification_body u env token now with
  | Except.ok r => Except.ok ([LogEntry.infoSent u.email], some r)
  | Except.error e => Except.ok ([LogEntry.errorFailed e], none)

/-- A persisted `PaymentAgreement` row.  `amount` is the fixed-point decimal
in cents; `amount_breakdown`, `extra_data` and `document` are opaque payloads
no claim touches and are left out. -/
structure AgreementRec where
  id : String
  buyer : Option String
  buyer_email : String
  seller : String
  name : String
  amount : Int
  currency : String
  description : Option String
  days_to_deliver : Nat
  transaction_type : String
  status : String
  created_at : Option Nat
  updated_at : Option Nat
deriving Repr, DecidableEq

/-- The arguments a caller passes when creating an agreement (the scenario's
`PaymentAgreement(buyer=U1, seller=U2, amount=..., currency=...)`). -/
structure AgreementParams where
  buyer : Option String
  buyer_email : String
  seller : String
  name : String
  amount : Int
  currency : String
deriving Repr, DecidableEq

/-- Field defaults applied at creation, from the model declaration:
`transaction_type = FULL_PAYMENT`, `status = PENDING`, `days_to_deliver = 0`,
`created_at`/`updated_at` set (`auto_now_add`/`auto_now`). -/
def newAgreement (p : AgreementParams) (newId : String) (now : Nat) : AgreementRec :=
  { id := newId
    buyer := p.buyer
    buyer_email := p.buyer_email
    seller := p.seller
    name := p.name
    amount := p.amount
    currency := p.currency
    description := none
    days_to_deliver := 0
    transaction_type := "full_payment"
    status := "pending"
    created_at := some now
    updated_at := some now }

/-- An argument of a call to the notifier `send_email`. -/
inductive NotifierArg
  | contentArg (c : EmailContent)
  | recipientsArg (rs : List Recipient)
deriving Repr, DecidableEq

/-- A `TypeError` raised by a Python call. -/
inductive PyCallErr
  | typeError
deriving Repr, DecidableEq

/-- Modelled from the spec: the notifier `send_email` lives in
`core.azure_communications`, outside the examined source; per the §4.5
contract `send(content, recipients)` it takes two required arguments, so a
Python call with any other number of positional arguments raises `TypeError`
before the callee body runs. -/
def send_email_arity : Nat := 2

/-- Invoking the notifier with a list of positional arguments. -/
def call_send_email (args : List NotifierArg) : Except PyCallErr Unit :=
  if args.length = send_email_arity then Except.ok () else Except.error PyCallErr.typeError

/-- The argument list `PaymentAgreement.onCreateAgreement` supplies:
`send_email()` — no content, no recipients. -/
def onCreateAgreement_args : List NotifierArg := []

/-- An observable event of the creation transaction. -/
inductive TxEvent
  | createdAgreement (id : String)
  | committed
  | rolledBack
  | logInfo (msg : String)
  | notifierInvoked (argCount : Nat)
deriving Repr, DecidableEq

/-- `True` exactly for the buyer-notification dispatch event. -/
def isNotifierEvent : TxEvent → Bool
  | TxEvent.notifierInvoked _ => true
  | _ => false

/-- `PaymentAgreement.onCreateAgreement`: logs
`Email sent to {self.buyer_email}` and then calls `send_email()` with no
arguments; the hook has no `try/except`, so the call's result is the hook's
result.  Returns the events the hook emits before any raise, and its
outcome. -/
def onCreateAgreement (r : AgreementRec) : List TxEvent × Except PyCallErr Unit :=
  ([TxEvent.logInfo r.buyer_email, TxEvent.notifierInvoked onCreateAgreement_args.length],
   call_send_email onCreateAgreement_args)

/-- State of the enclosing transaction: rows staged by the open transaction,
the durable table, callbacks registered with `transaction.on_commit`, and the
events observed so far. -/
structure TxState where
  staged : List AgreementRec
  table : List AgreementRec
  afterCommitHooks : List (List TxEvent × Except PyCallErr Unit)
  events : List TxEvent

/-- Opening the transaction over a durable table. -/
def txBegin (table : List AgreementRec) : TxState :=
  ⟨[], table, [], []⟩

/-- Creating a `PaymentAgreement` inside the open transaction: the row is
staged, and the `AFTER_CREATE, on_commit=True` hook is registered with
`transaction.on_commit` to run after commit — it does not run now. -/
def txCreateAgreement (p : AgreementParams) (newId : String) (now : Nat) (s : TxState) :
    TxState :=
  let r := newAgreement p newId now
  { s with
    staged := s.staged ++ [r]
    afterCommitHooks := s.afterCommitHooks ++ [onCreateAgreement r]
    events := s.events ++ [TxEvent.createdAgreement r.id] }

/-- Running the registered on-commit callbacks in order: each callback's
events are observed up to its outcome; the first exception stops the rest and
propagates (nothing catches it). -/
def runHooks : List (List TxEvent × Except PyCallErr Unit) → List TxEvent × Except PyCallErr Unit
  | [] => ([], Except.ok ())
  | h :: hs =>
    match h.2 with
    | Except.error e => (h.1, Except.error e)
    | Except.ok _ =>
      let rest := runHooks hs
      (h.1 ++ rest.1, rest.2)

/-- Commit: the staged rows become durable, the commit is observed, and only
then do the on-commit callbacks run. -/
def txCommit (s : TxState) : TxState × Except PyCallErr Unit :=
  let hooks := runHooks s.afterCommitHooks
  ({ staged := []
     table := s.table ++ s.staged
     afterCommitHooks := []
     events := s.events ++ [TxEvent.committed] ++ hooks.1 }, hooks.2)

/-- Rollback: staged rows and registered callbacks are dropped; no callback
ever runs. -/
def txRollback (s : TxState) : TxState :=
  { staged := []
    table := s.table
    afterCommitHooks := []
    events := s.events ++ [TxEvent.rolledBack] }

/-- The scenario: create one agreement and commit the transaction. -/
def createAgreementAndCommit (p : AgreementParams) (newId : String) (now : Nat)
    (table : List AgreementRec) : TxState × Except PyCallErr Unit :=
  txCommit (txCreateAgreement p newId now (txBegin table))

/-- The scenario's counterpart: create one agreement and roll back. -/
def createAgreementAndRollback (p : AgreementParams) (newId : String) (now : Nat)
    (table : List AgreementRec) : TxState :=
  txRollback (txCreateAgreement p newId now (txBegin table))

theorem tokenOfDraw_length (d : Draw) : (tokenOfDraw d).length = 7 := by
  simp [tokenOfDraw, String.length]

theorem tokenOfDraw_mem (d : Draw) : ∀ c ∈ (tokenOfDraw d).data, c ∈ alphanumChars := by
  intro c hc
  simp only [tokenOfDraw] at hc
  rw [List.mem_map] at hc
  obtain ⟨i, _, rfl⟩ := hc
  exact List.get_mem _ _ _

theorem genFrom_sound (existing : List String) (draws : Nat → Draw) :
    ∀ fuel i t, genFrom existing draws i fuel = some t →
      (∃ j, i ≤ j ∧ t = tokenOfDraw (draws j)) ∧ t ∉ existing := by
  intro fuel
  induction fuel with
  | zero => intro i t h; simp [genFrom] at h
  | succ n ih =>
    intro i t h
    simp only [genFrom] at h
    by_cases hm : tokenOfDraw (draws i) ∈ existing
    · rw [if_pos hm] at h
      obtain ⟨⟨j, hij, rfl⟩, hnot⟩ := ih (i + 1) _ h
      exact ⟨⟨j, by omega, rfl⟩, hnot⟩
    · rw [if_neg hm] at h
      injection h with h
      subst h
      exact ⟨⟨i, Nat.le_refl _, rfl⟩, hm⟩

/-- C1: every token returned by `generate_unique_token` is exactly 7
characters long, each character is drawn from the alphanumeric alphabet, and
the token differs from every already-persisted token of the same concrete
kind (the `existing` table). -/
theorem generate_unique_token_spec (existing : List String) (draws : Nat → Draw)
    (fuel i : Nat) (t : String) (h : genFrom existing draws i fuel = some t) :
    t.length = 7 ∧ (∀ c ∈ t.data, c ∈ alphanumChars) ∧ t ∉ existing := by
  obtain ⟨⟨j, _, rfl⟩, hnot⟩ := genFrom_sound existing draws fuel i t h
  exact ⟨tokenOfDraw_length _, tokenOfDraw_mem _, hnot⟩

/-- The all-zero draw: the token `aaaaaaa`. -/
def zeroDraw : Draw := fun _ => ⟨0, by decide⟩

/-- A stream of draws that repeats `zeroDraw` forever. -/
def zeroDraws : Nat → Draw := fun _ => zeroDraw

/-- Witness for C1: a run over the empty table returning on the first draw. -/
theorem generate_unique_token_spec_witness :
    ("aaaaaaa" : String).length = 7 ∧
      (∀ c ∈ ("aaaaaaa" : String).data, c ∈ alphanumChars) ∧
      ("aaaaaaa" : String) ∉ ([] : List String) :=
  generate_unique_token_spec [] zeroDraws 1 0 "aaaaaaa" (by decide)

/-- A one-row token table already holding the only token the stream
`zeroDraws` can ever produce. -/
def usedTable : List String := [tokenOfDraw zeroDraw]

theorem genFrom_usedTable_none : ∀ n i, genFrom usedTable zeroDraws i n = none := by
  intro n
  induction n with
  | zero => intro i; rfl
  | succ n ih =>
    intro i
    simp only [genFrom, zeroDraws]
    rw [if_pos (show tokenOfDraw zeroDraw ∈ usedTable from List.mem_cons_self _ _)]
    exact ih (i + 1)

/-- C9 fails as stated: over the table `usedTable` an unused 7-character
alphanumeric value exists, yet the retry loop driven by the draw stream
`zeroDraws` never returns — termination depends on the draws, not only on an
unused value existing. -/
theorem generate_unique_token_no_guaranteed_termination :
    (∃ t : String, t.length = 7 ∧ (∀ c ∈ t.data, c ∈ alphanumChars) ∧ t ∉ usedTable) ∧
      ¬ ∃ n t, genFrom usedTable zeroDraws 0 n = some t := by
  constructor
  · exact ⟨"bbbbbbb", by decide, by decide, by decide⟩
  · rintro ⟨n, t, h⟩
    rw [genFrom_usedTable_none n 0] at h
    cases h

theorem genFrom_hits (existing : List String) (draws : Nat → Draw) :
    ∀ n i, tokenOfDraw (draws (i + n)) ∉ existing →
      ∃ t, genFrom existing draws i (n + 1) = some t ∧ t ∉ existing := by
  intro n
  induction n with
  | zero =>
    intro i h
    rw [Nat.add_zero] at h
    refine ⟨tokenOfDraw (draws i), ?_, h⟩
    simp only [genFrom]
    rw [if_neg h]
  | succ n ih =>
    intro i h
    by_cases hm : tokenOfDraw (draws i) ∈ existing
    · have h' : tokenOfDraw (draws (i + 1 + n)) ∉ existing := by
        have he : i + 1 + n = i + (n + 1) := by omega
        rw [he]
        exact h
      obtain ⟨t, ht, hnot⟩ := ih (i + 1) h'
      refine ⟨t, ?_, hnot⟩
      simp only [genFrom]
      rw [if_pos hm]
      exact ht
    · refine ⟨tokenOfDraw (draws i), ?_, hm⟩
      simp only [genFrom]
      rw [if_neg hm]

/-- C9 (amended): the unbounded retry loop terminates exactly when the draw
stream eventually produces a value not yet persisted among tokens of the same
kind, and what it returns is never a persisted token; an unused value merely
existing does not guarantee termination. -/
theorem generate_unique_token_terminates_iff (existing : List String) (draws : Nat → Draw) :
    (∃ n, tokenOfDraw (draws n) ∉ existing) ↔
      ∃ fuel t, genFrom existing draws 0 fuel = some t ∧ t ∉ existing := by
  constructor
  · rintro ⟨n, h⟩
    have h0 : tokenOfDraw (draws (0 + n)) ∉ existing := by
      rw [Nat.zero_add]
      exact h
    obtain ⟨t, ht, hnot⟩ := genFrom_hits existing draws n 0 h0
    exact ⟨n + 1, t, ht, hnot⟩
  · rintro ⟨fuel, t, ht, _⟩
    obtain ⟨⟨j, _, rfl⟩, hnot⟩ := genFrom_sound existing draws fuel 0 t ht
    exact ⟨j, hnot⟩

/-- C2: the derived `is_active` equals `active AND (no expiry OR now <
expiry)`; a token whose expiry is in the past is inactive regardless of the
`active` flag, and a token with `active = False` is inactive regardless of
expiry. -/
theorem is_active_spec (tk : TokenRec) (now : Nat) :
    tk.is_active now = specIsActive tk now ∧
      (∀ e, tk.expires_on = some e → e < now → tk.is_active now = false) ∧
      (tk.active = false → tk.is_active now = false) := by
  refine ⟨?_, ?_, ?_⟩
  · cases htk : tk.expires_on <;> cases h2 : tk.active <;>
      simp [TokenRec.is_active, specIsActive, htk, h2]
  · intro e he hlt
    cases h2 : tk.active
    · simp [TokenRec.is_active, h2]
    · simp [TokenRec.is_active, h2, he]
      omega
  · intro ha
    simp [TokenRec.is_active, ha]

/-- Witness for C2: a token expired in the past is inactive even with
`active = True`; a token with `active = False` is inactive even without
expiry. -/
theorem is_active_spec_witness :
    (TokenRec.mk "t" 0 (some 5) true).is_active 9 = false ∧
      (TokenRec.mk "u" 0 none false).is_active 9 = false :=
  ⟨(is_active_spec (TokenRec.mk "t" 0 (some 5) true) 9).2.1 5 rfl (by decide),
   (is_active_spec (TokenRec.mk "u" 0 none false) 9).2.2 rfl⟩

/-- C6: the verification flow persists a token whose `expires_on` is the mint
time plus exactly 24 hours; it is active at mint time and inactive once 24
hours have elapsed. -/
theorem verification_token_validity (u : UserRec) (token : String) (now t : Nat)
    (h24 : now + 24 * 3600 ≤ t) :
    (mintVerificationToken token now).expires_on = some (now + 24 * 3600) ∧
      (mintVerificationToken token now).is_active now = true ∧
      (mintVerificationToken token now).is_active t = false ∧
      (∃ msg, send_email_verification_body u allOk token now =
        Except.ok (mintVerificationToken token now, msg)) := by
  refine ⟨rfl, ?_, ?_, ⟨_, rfl⟩⟩
  · simp [mintVerificationToken, TokenRec.is_active]
  · simp [mintVerificationToken, TokenRec.is_active]
    omega

/-- Witness for C6: minted at time 0, the token is active immediately and
inactive 25 hours later. -/
theorem verification_token_validity_witness :
    (mintVerificationToken "abcdefg" 0).is_active 0 = true ∧
      (mintVerificationToken "abcdefg" 0).is_active 90000 = false := by
  have h := verification_token_validity ⟨"i", "n", "e", "p", false, true, false⟩
    "abcdefg" 0 90000 (by decide)
  exact ⟨h.2.1, h.2.2.1⟩

/-- C3: any exception raised inside the `try` block of
`send_email_verification` (mint, persist, or dispatch) is caught and logged;
the call still returns normally (`Except.ok`), and the caller receives no
success payload and no exception. -/
theorem send_email_verification_swallows (u : UserRec) (env : SendEnv) (token : String)
    (now : Nat)
    (hfail : env.mintFails = true ∨ env.persistFails = true ∨ env.dispatchFails = true) :
    (∃ r, send_email_verification u env token now = Except.ok r) ∧
      ∃ e, send_email_verification u env token now =
        Except.ok ([LogEntry.errorFailed e], none) := by
  obtain ⟨m, p, d⟩ := env
  cases m <;> cases p <;> cases d
  all_goals first
    | exact ⟨⟨_, rfl⟩, _, rfl⟩
    | simp at hfail

/-- Witness for C3: with the mint step failing, the call returns normally
with only an error log. -/
theorem send_email_verification_swallows_witness :
    (∃ r, send_email_verification ⟨"i", "n", "e", "p", false, true, false⟩
        ⟨true, false, false⟩ "tok" 0 = Except.ok r) ∧
      ∃ e, send_email_verification ⟨"i", "n", "e", "p", false, true, false⟩
        ⟨true, false, false⟩ "tok" 0 = Except.ok ([LogEntry.errorFailed e], none) :=
  send_email_verification_swallows _ _ _ _ (Or.inl rfl)

theorem str_append_assoc (a b c : String) : a ++ b ++ c = a ++ (b ++ c) := by
  apply String.ext
  simp [List.append_assoc]

/-- C7: the dispatched verification email has an HTML body containing the
HTML-escaped display name and the verification-link path
`/verification/verify_email/` ++ user id ++ `/` ++ token ++ `/`, and the
recipient list is exactly the user's address and display name. -/
theorem verification_email_contents (u : UserRec) (token : String) (now : Nat) :
    ∃ tokRec sent,
      send_email_verification_body u allOk token now = Except.ok (tokRec, sent) ∧
      (∃ a b, sent.content.html = a ++ escape u.name ++ b) ∧
      (∃ a b, sent.content.html = a ++ verifyPath u.id token ++ b) ∧
      verifyPath u.id token = "/verification/verify_email/" ++ u.id ++ "/" ++ token ++ "/" ∧
      sent.content.subject = "Email Verification" ∧
      sent.recipients = [{ address := u.email, displayName := u.name }] := by
  refine ⟨_, _, rfl, ⟨emailBodyPre, emailBodyMid ++ verifyPath u.id token ++ emailBodyPost, ?_⟩,
    ⟨emailBodyPre ++ escape u.name ++ emailBodyMid, emailBodyPost, ?_⟩, rfl, rfl, rfl⟩
  · show email_body u.name u.id token = _
    simp [email_body, str_append_assoc]
  · show email_body u.name u.id token = _
    simp [email_body, str_append_assoc]

/-- C4: creating a PaymentAgreement and committing persists the row with
`status = "pending"` and `created_at` set, and the buyer-notification hook
fires exactly once, strictly after the commit event; on rollback it never
fires. -/
theorem agreement_create_notifies_after_commit (p : AgreementParams) (newId : String)
    (now : Nat) :
    (createAgreementAndCommit p newId now []).1.table = [newAgreement p newId now] ∧
      (newAgreement p newId now).status = "pending" ∧
      (newAgreement p newId now).created_at = some now ∧
      (createAgreementAndCommit p newId now []).1.events =
        [TxEvent.createdAgreement newId, TxEvent.committed,
         TxEvent.logInfo p.buyer_email, TxEvent.notifierInvoked 0] ∧
      ((createAgreementAndCommit p newId now []).1.events.countP
        (fun e => isNotifierEvent e)) = 1 ∧
      (∃ i j, i < j ∧
        (createAgreementAndCommit p newId now []).1.events.get? i =
          some TxEvent.committed ∧
        (createAgreementAndCommit p newId now []).1.events.get? j =
          some (TxEvent.notifierInvoked 0)) ∧
      ((createAgreementAndRollback p newId now []).events.countP
        (fun e => isNotifierEvent e)) = 0 :=
  ⟨rfl, rfl, rfl, rfl, rfl, ⟨1, 3, by omega, rfl, rfl⟩, rfl⟩

/-- C10: the post-create hook calls `send_email` with an empty argument list —
no content and no recipients for the buyer — the call's arity does not match
the notifier contract of two arguments, the resulting `TypeError` is the
hook's outcome, and it propagates uncaught through the commit. -/
theorem onCreateAgreement_arity_mismatch (r : AgreementRec) (p : AgreementParams)
    (newId : String) (now : Nat) (table : List AgreementRec) :
    onCreateAgreement_args = [] ∧
      onCreateAgreement_args.length = 0 ∧
      send_email_arity = 2 ∧
      (onCreateAgreement r).1 =
        [TxEvent.logInfo r.buyer_email, TxEvent.notifierInvoked 0] ∧
      (onCreateAgreement r).2 = Except.error PyCallErr.typeError ∧
      (createAgreementAndCommit p newId now table).2 = Except.error PyCallErr.typeError :=
  ⟨rfl, rfl, rfl, rfl, rfl, rfl⟩

/-- C5: `create_user` with a `None` or empty email raises the `ValueError`
`Users must have an email address` and creates no user (the raise happens
before any save). -/
theorem create_user_requires_email (newId salt : String) (password : Option String) :
    create_user newId salt none password =
        Except.error "Users must have an email address" ∧
      create_user newId salt (some "") password =
        Except.error "Users must have an email address" :=
  ⟨rfl, rfl⟩

theorem str_head_append (a b : String) (c : Char) (h : a.data.head? = some c) :
    (a ++ b).data.head? = some c := by
  rw [String.data_append]
  cases hl : a.data with
  | nil => rw [hl] at h; cases h
  | cons x xs =>
    rw [hl] at h
    injection h with h
    subst h
    rfl

/-- C8 fails as stated: calling `create_user(email)` with the password left at
its `None` default succeeds, but the stored password is Django's
unusable-password marker, not a usable hash. -/
theorem create_user_no_password_unusable :
    ∃ u, create_user "id0" "saltA" (some "a@b.com") none = Except.ok u ∧
      has_usable_password u.password = false := by
  refine ⟨_, rfl, ?_⟩
  decide

/-- C8 (amended): for every valid (non-empty) email, `create_user` returns a
user with `is_active = True` and `is_admin = False`; when a password is
provided, the stored password is the usable salted-hash encoding and is never
equal to the plaintext password input; when the password is left at its
`None` default, the stored value is the unusable-password marker, so the
stored hash is not usable. -/
theorem create_user_valid_email_spec (newId salt e : String) (password : Option String)
    (he : e ≠ "") :
    ∃ u, create_user newId salt (some e) password = Except.ok u ∧
      u.is_active = true ∧ u.is_admin = false ∧
      (∀ p, password = some p →
        has_usable_password u.password = true ∧ u.password ≠ p) ∧
      (password = none → has_usable_password u.password = false) := by
  have hcond : pyTruthy (some e) = true := by simp [pyTruthy, he]
  refine ⟨{ id := newId
            name := ""
            email := normalize_email e
            password := make_password salt password
            email_verified := false
            is_active := true
            is_admin := false }, ?_, rfl, rfl, ?_, ?_⟩
  · simp [create_user, hcond]
  · intro p hp
    subst hp
    constructor
    · have ha := str_head_append "pbkdf2_sha256$600000$" salt 'p' rfl
      have hb := str_head_append ("pbkdf2_sha256$600000$" ++ salt) "$" 'p' ha
      have hc := str_head_append ("pbkdf2_sha256$600000$" ++ salt ++ "$")
        (hashDigest salt p) 'p' hb
      simp [has_usable_password, make_password, hc]
    · intro hEq
      have hEq2 : "pbkdf2_sha256$600000$" ++ salt ++ "$" ++ hashDigest salt p = p := hEq
      have hlen := congrArg String.length hEq2
      rw [String.length_append, String.length_append, String.length_append] at hlen
      have h21 : ("pbkdf2_sha256$600000$" : String).length = 21 := rfl
      have h1 : ("$" : String).length = 1 := rfl
      have hd : p.length + 1 ≤ (hashDigest salt p).length := by
        simp only [hashDigest, String.length_mk, List.length_append, List.length_replicate]
        omega
      rw [h21, h1] at hlen
      omega
  · intro hn
    subst hn
    have ha := str_head_append "!" salt '!' rfl
    simp [has_usable_password, make_password, ha]

/-- Witness for C8's amended theorem at a concrete email, in both password
modes. -/
theorem create_user_valid_email_spec_witness :
    (∃ u, create_user "id1" "s1" (some "x@y.z") (some "hunter2") = Except.ok u ∧
      u.is_active = true ∧ u.is_admin = false ∧
      has_usable_password u.password = true ∧ u.password ≠ "hunter2") ∧
    (∃ u, create_user "id2" "s2" (some "x@y.z") none = Except.ok u ∧
      has_usable_password u.password = false) := by
  constructor
  · obtain ⟨u, h1, h2, h3, h4, _⟩ :=
      create_user_valid_email_spec "id1" "s1" "x@y.z" (some "hunter2") (by decide)
    obtain ⟨h5, h6⟩ := h4 "hunter2" rfl
    exact ⟨u, h1, h2, h3, h5, h6⟩
  · obtain ⟨u, h1, _, _, _, h5⟩ :=
      create_user_valid_email_spec "id2" "s2" "x@y.z" none (by decide)
    exact ⟨u, h1, h5 rfl⟩
